import Mathlib

/-!
Verification of the provider-state registry, mock activation, verification
driver, request mimic and broker publisher of `pact_test_utils`
(`producer.py`, `testcase.py`, `publish_pacts.py`), as a shallow embedding.

Python exceptions are modelled by `Except PyErr`.  Python callables that are
stored or returned (setup callbacks, the decorator wrapper) are modelled as
values carrying an object identity (`objId`, standing for the identity of the
Python function object) together with their observable call behaviour.  The
process-wide dict `state_registry` is modelled as a function from keys to
optional entries, with dict assignment as pointwise update.
-/

/-- Python exceptions raised by the code under study.  `providerStateError`
is `pactman`'s `ProviderStateError`, `assertionError` a failed `assert`,
`callbackError` an arbitrary exception escaping a user setup callback,
`mockError` an arbitrary exception escaping a mock factory during
acquisition, `httpError` is `requests.HTTPError` from `raise_for_status`,
and `valueError` is Python's `ValueError`. -/
inductive PyErr where
  | providerStateError (msg : String)
  | assertionError (msg : String)
  | callbackError (msg : String)
  | mockError (mockId : Nat)
  | httpError (status : Nat)
  | valueError (msg : String)
deriving DecidableEq, Repr

/-- A zero-argument mock factory registered with a state.  Invoking and
entering it (`stack.enter_context(mock())`) either succeeds or raises;
`id` identifies the factory, `acquireFails` says whether acquisition
raises. -/
structure MockSpec where
  id : Nat
  acquireFails : Bool
deriving DecidableEq, Repr

/-- A setup callback stored in the registry.  `objId` models the identity of
the Python function object; `behavior` is what calling it does: `none`
returns normally, `some e` raises exception `e`. -/
structure SetupCallback where
  objId : Nat
  behavior : Option String
deriving DecidableEq, Repr

/-- A registry entry: the tuple `(func, mocks)` stored by `PactStates._set`. -/
abbrev StateEntry := SetupCallback × List MockSpec

/-- Model of `PactStates.state_registry`: a dict keyed by `(consumer, state_name)`. -/
abbrev Registry := (String × String) → Option StateEntry

/-- The empty registry (`PactStates.__init__`). -/
def emptyRegistry : Registry := fun _ => none

/-- A single quote character, used in the interpolated error message below. -/
def squote : String := Char.toString (Char.ofNat 39)

/-- The message of the `ProviderStateError` raised by `PactStates._get`:
`f"Missing state provider for consumer:\n@pact_state('{consumer}', '{state_name}')"`. -/
def missingMsg (consumer state_name : String) : String :=
  "Missing state provider for consumer:\n@pact_state(" ++ squote ++ consumer ++ squote
    ++ ", " ++ squote ++ state_name ++ squote ++ ")"

/-- Observable events of `PactStates.enable_mocks`: a mock factory acquired
(`mock()` invoked and entered on the `ExitStack`), an acquisition attempt
that raised, the `yield` running the caller's body, and a mock released on
unwinding of the stack. -/
inductive MEvent where
  | acquireOk (id : Nat)
  | acquireFail (id : Nat)
  | bodyRun
  | release (id : Nat)
deriving DecidableEq, Repr

namespace PactStates

/-- The `with ExitStack()` loop of `enable_mocks`: walk the mock list,
entering each factory while pushing it on the stack (`acquired`, most
recent first).  If an acquisition raises, the stack unwinds (releasing the
already-acquired mocks most-recent-first) and the exception propagates;
when the loop completes, the body runs (`yield`) and on normal exit the
stack unwinds the same way. -/
def enableMocksGo : List MockSpec → List Nat → List MEvent × Except PyErr Unit
  | [], acquired => (MEvent.bodyRun :: acquired.map MEvent.release, .ok ())
  | m :: rest, acquired =>
    if m.acquireFails then
      (MEvent.acquireFail m.id :: acquired.map MEvent.release, .error (.mockError m.id))
    else
      let r := enableMocksGo rest (m.id :: acquired)
      (MEvent.acquireOk m.id :: r.1, r.2)

/-- Model of `PactStates._get`: dict lookup; on `KeyError` raises `ProviderStateError`
with an interpolated message naming the consumer and the state. -/
def _get (r : Registry) (consumer state_name : String) : Except PyErr StateEntry :=
  match r (consumer, state_name) with
  | some entry => .ok entry
  | none => .error (.providerStateError (missingMsg consumer state_name))

/-- Model of `PactStates._set`: dict assignment
`self.state_registry[(consumer, state_name)] = (func, mocks)`. -/
def _set (r : Registry) (consumer state_name : String)
    (func : SetupCallback) (mocks : List MockSpec) : Registry :=
  fun k => if k = (consumer, state_name) then some (func, mocks) else r k

/-- Calling a setup callback: `func()` returns normally or raises. -/
def callSetup (func : SetupCallback) : Except PyErr Unit :=
  match func.behavior with
  | none => .ok ()
  | some e => .error (.callbackError e)

/-- Model of `PactStates.prepare_state`: look the entry up and call `func()`.
The result is `(registry after the call, ids of callbacks invoked in order,
outcome)`; the method never writes to the dict, and calls `func` once. -/
def prepare_state (r : Registry) (consumer state_name : String) :
    Registry × List Nat × Except PyErr Unit :=
  match _get r consumer state_name with
  | .error e => (r, [], .error e)
  | .ok (func, _mocks) => (r, [func.objId], callSetup func)

/-- Model of `PactStates.get_mocks`: look the entry up and return its mock list. -/
def get_mocks (r : Registry) (consumer state_name : String) :
    Except PyErr (List MockSpec) :=
  match _get r consumer state_name with
  | .error e => .error e
  | .ok (_func, mocks) => .ok mocks

/-- Model of `PactStates.enable_mocks`: run `get_mocks` on the entry (propagating its
lookup failure), then run the `ExitStack` loop over the mock factories. -/
def enable_mocks (r : Registry) (consumer state_name : String) :
    List MEvent × Except PyErr Unit :=
  match get_mocks r consumer state_name with
  | .error e => ([], .error e)
  | .ok mocks => enableMocksGo mocks []

/-- Model of `PactStates.add`: registers `(func, mocks)` under the key (with
`mocks=None` defaulting to `[]`) and returns the `@wraps(func)` wrapper
`inner`.  `freshId` models the identity of the newly allocated function
object `inner`; its call behaviour delegates to `func`, so the behaviour is
copied unchanged. -/
def add (r : Registry) (consumer state_name : String) (mocks : Option (List MockSpec))
    (func : SetupCallback) (freshId : Nat) : Registry × SetupCallback :=
  let mocks := mocks.getD []
  (_set r consumer state_name func mocks, { objId := freshId, behavior := func.behavior })

end PactStates

/-- C5: last registration wins.  `_get` after `_set` returns exactly the entry
just stored for that key, and every other key is unaffected. -/
theorem lookup_last_write_wins (r : Registry) (c s : String)
    (func : SetupCallback) (mocks : List MockSpec) :
    PactStates._get (PactStates._set r c s func mocks) c s = .ok (func, mocks) ∧
    ∀ c2 s2, (c2, s2) ≠ (c, s) →
      PactStates._get (PactStates._set r c s func mocks) c2 s2 = PactStates._get r c2 s2 := by
  constructor
  · simp [PactStates._get, PactStates._set]
  · intro c2 s2 h
    simp [PactStates._get, PactStates._set, h]

theorem lookup_last_write_wins_witness :
    PactStates._get
        (PactStates._set emptyRegistry "Orders" "order 42 exists" ⟨0, none⟩ []) "Orders"
        "order 42 exists" = .ok (⟨0, none⟩, []) ∧
      (("Other", "state") : String × String) ≠ ("Orders", "order 42 exists") ∧
      PactStates._get
        (PactStates._set emptyRegistry "Orders" "order 42 exists" ⟨0, none⟩ []) "Other"
        "state" = PactStates._get emptyRegistry "Other" "state" :=
  ⟨(lookup_last_write_wins emptyRegistry "Orders" "order 42 exists" ⟨0, none⟩ []).1,
   by decide,
   (lookup_last_write_wins emptyRegistry "Orders" "order 42 exists" ⟨0, none⟩ []).2
     "Other" "state" (by decide)⟩

/-- A sample registry used by witnesses: two states for consumer `"Orders"`,
one whose setup callback raises `"boom"`, one whose second mock factory
fails during acquisition. -/
def sampleRegistry : Registry :=
  PactStates._set
    (PactStates._set emptyRegistry "Orders" "order 42 exists"
      ⟨7, some "boom"⟩ [⟨1, false⟩, ⟨2, false⟩, ⟨3, false⟩])
    "Orders" "failing mocks" ⟨8, none⟩ [⟨1, false⟩, ⟨2, true⟩, ⟨3, false⟩]

/-- C4: lookup of an unregistered `(consumer, state)` pair fails with the
`ProviderStateError`, in `_get` itself and in each operation built on it
(`prepare_state`, `get_mocks`, `enable_mocks`); nothing is invoked or
acquired, and the error message carries both the consumer name and the
state name as substrings. -/
theorem missing_lookup_fails (r : Registry) (c s : String) (h : r (c, s) = none) :
    PactStates._get r c s = .error (.providerStateError (missingMsg c s)) ∧
    PactStates.prepare_state r c s = (r, [], .error (.providerStateError (missingMsg c s))) ∧
    PactStates.get_mocks r c s = .error (.providerStateError (missingMsg c s)) ∧
    PactStates.enable_mocks r c s = ([], .error (.providerStateError (missingMsg c s))) ∧
    (∃ a b, (missingMsg c s).data = a ++ (c.data ++ b)) ∧
    (∃ a b, (missingMsg c s).data = a ++ (s.data ++ b)) := by
  have hg : PactStates._get r c s = .error (.providerStateError (missingMsg c s)) := by
    simp [PactStates._get, h]
  refine ⟨hg, ?_, ?_, ?_, ?_, ?_⟩
  · simp [PactStates.prepare_state, hg]
  · simp [PactStates.get_mocks, hg]
  · simp [PactStates.enable_mocks, PactStates.get_mocks, hg]
  · exact ⟨("Missing state provider for consumer:\n@pact_state(" ++ squote).data,
      (squote ++ ", " ++ squote ++ s ++ squote ++ ")").data,
      by simp [missingMsg, String.data_append]⟩
  · exact ⟨("Missing state provider for consumer:\n@pact_state(" ++ squote ++ c ++ squote
        ++ ", " ++ squote).data, (squote ++ ")").data,
      by simp [missingMsg, String.data_append]⟩

theorem missing_lookup_fails_witness :
    sampleRegistry ("Orders", "no such state") = none ∧
    (PactStates._get sampleRegistry "Orders" "no such state" =
        .error (.providerStateError (missingMsg "Orders" "no such state")) ∧
      PactStates.prepare_state sampleRegistry "Orders" "no such state" =
        (sampleRegistry, [], .error (.providerStateError (missingMsg "Orders" "no such state"))) ∧
      PactStates.get_mocks sampleRegistry "Orders" "no such state" =
        .error (.providerStateError (missingMsg "Orders" "no such state")) ∧
      PactStates.enable_mocks sampleRegistry "Orders" "no such state" =
        ([], .error (.providerStateError (missingMsg "Orders" "no such state"))) ∧
      (∃ a b, (missingMsg "Orders" "no such state").data = a ++ (("Orders" : String).data ++ b)) ∧
      (∃ a b, (missingMsg "Orders" "no such state").data =
        a ++ (("no such state" : String).data ++ b))) :=
  ⟨by decide, missing_lookup_fails sampleRegistry "Orders" "no such state" (by decide)⟩

/-- C7: for a registered pair, `prepare_state` leaves the registry unchanged,
invokes the entry's setup callback exactly once, and the outcome is exactly
the callback's own outcome: normal return when it returns, the callback's
exception propagated unchanged when it raises. -/
theorem prepare_state_calls_setup_once (r : Registry) (c s : String)
    (func : SetupCallback) (mocks : List MockSpec)
    (h : PactStates._get r c s = .ok (func, mocks)) :
    (PactStates.prepare_state r c s).1 = r ∧
    (PactStates.prepare_state r c s).2.1 = [func.objId] ∧
    (func.behavior = none → (PactStates.prepare_state r c s).2.2 = .ok ()) ∧
    (∀ e, func.behavior = some e →
      (PactStates.prepare_state r c s).2.2 = .error (.callbackError e)) := by
  refine ⟨?_, ?_, ?_, ?_⟩
  · simp [PactStates.prepare_state, h]
  · simp [PactStates.prepare_state, h]
  · intro he
    simp [PactStates.prepare_state, h, PactStates.callSetup, he]
  · intro e he
    simp [PactStates.prepare_state, h, PactStates.callSetup, he]

theorem prepare_state_calls_setup_once_witness :
    PactStates._get sampleRegistry "Orders" "order 42 exists" =
      .ok (⟨7, some "boom"⟩, [⟨1, false⟩, ⟨2, false⟩, ⟨3, false⟩]) ∧
    ((PactStates.prepare_state sampleRegistry "Orders" "order 42 exists").1 = sampleRegistry ∧
      (PactStates.prepare_state sampleRegistry "Orders" "order 42 exists").2.1 = [7] ∧
      ((⟨7, some "boom"⟩ : SetupCallback).behavior = none →
        (PactStates.prepare_state sampleRegistry "Orders" "order 42 exists").2.2 = .ok ()) ∧
      (∀ e, (⟨7, some "boom"⟩ : SetupCallback).behavior = some e →
        (PactStates.prepare_state sampleRegistry "Orders" "order 42 exists").2.2 =
          .error (.callbackError e))) :=
  ⟨rfl,
   prepare_state_calls_setup_once sampleRegistry "Orders" "order 42 exists"
     ⟨7, some "boom"⟩ [⟨1, false⟩, ⟨2, false⟩, ⟨3, false⟩] rfl⟩

/-- Failing run of the `ExitStack` loop: with the failing factory `k` after a
prefix `pre` of succeeding factories, the loop acquires `pre` in order,
fails acquiring `k`, and unwinds, releasing the acquired mocks (the stack,
most recent first) before the exception escapes. -/
theorem enableMocksGo_fail (post : List MockSpec) (k : MockSpec) (hk : k.acquireFails = true) :
    ∀ (pre : List MockSpec) (acc : List Nat), (∀ m ∈ pre, m.acquireFails = false) →
    PactStates.enableMocksGo (pre ++ k :: post) acc =
      (pre.map (fun m => MEvent.acquireOk m.id) ++
        MEvent.acquireFail k.id :: (pre.reverse.map MockSpec.id ++ acc).map MEvent.release,
       .error (.mockError k.id))
  | [], acc, _ => by simp [PactStates.enableMocksGo, hk]
  | m :: pre, acc, h => by
    have hm : m.acquireFails = false := h m (List.mem_cons_self m pre)
    have ih := enableMocksGo_fail post k hk pre (m.id :: acc)
      (fun x hx => h x (List.mem_cons_of_mem m hx))
    simp [PactStates.enableMocksGo, hm, ih]

/-- Successful run of the `ExitStack` loop: all factories acquired in list
order, the body runs, then the stack unwinds most recent first. -/
theorem enableMocksGo_ok :
    ∀ (mocks : List MockSpec) (acc : List Nat), (∀ m ∈ mocks, m.acquireFails = false) →
    PactStates.enableMocksGo mocks acc =
      (mocks.map (fun m => MEvent.acquireOk m.id) ++
        MEvent.bodyRun :: (mocks.reverse.map MockSpec.id ++ acc).map MEvent.release,
       .ok ())
  | [], acc, _ => by simp [PactStates.enableMocksGo]
  | m :: mocks, acc, h => by
    have hm : m.acquireFails = false := h m (List.mem_cons_self m mocks)
    have ih := enableMocksGo_ok mocks (m.id :: acc)
      (fun x hx => h x (List.mem_cons_of_mem m hx))
    simp [PactStates.enableMocksGo, hm, ih]

/-- C3: for a registered pair whose mock factories all acquire successfully,
`enable_mocks` acquires them in exactly registration (list) order, runs the
body, and on normal exit releases each exactly once in exact reverse
order. -/
theorem enable_mocks_ordered (r : Registry) (c s : String) (func : SetupCallback)
    (mocks : List MockSpec) (hreg : PactStates._get r c s = .ok (func, mocks))
    (hok : ∀ m ∈ mocks, m.acquireFails = false) :
    PactStates.enable_mocks r c s =
      (mocks.map (fun m => MEvent.acquireOk m.id) ++
        MEvent.bodyRun :: mocks.reverse.map (fun m => MEvent.release m.id),
       .ok ()) := by
  have hgo := enableMocksGo_ok mocks [] hok
  simp [PactStates.enable_mocks, PactStates.get_mocks, hreg, hgo, List.map_map,
    Function.comp_def]

theorem enable_mocks_ordered_witness :
    PactStates._get sampleRegistry "Orders" "order 42 exists" =
      .ok (⟨7, some "boom"⟩, [⟨1, false⟩, ⟨2, false⟩, ⟨3, false⟩]) ∧
    (∀ m ∈ ([⟨1, false⟩, ⟨2, false⟩, ⟨3, false⟩] : List MockSpec), m.acquireFails = false) ∧
    PactStates.enable_mocks sampleRegistry "Orders" "order 42 exists" =
      ([MEvent.acquireOk 1, MEvent.acquireOk 2, MEvent.acquireOk 3, MEvent.bodyRun,
        MEvent.release 3, MEvent.release 2, MEvent.release 1], .ok ()) :=
  ⟨rfl, by decide,
   enable_mocks_ordered sampleRegistry "Orders" "order 42 exists" ⟨7, some "boom"⟩
     [⟨1, false⟩, ⟨2, false⟩, ⟨3, false⟩] rfl (by decide)⟩

/-- C2: for a registered pair whose factory `k` fails during acquisition
after the succeeding prefix `pre`, `enable_mocks` releases each factory of
`pre` exactly once, in exact reverse order of acquisition, then propagates
the exception; factories after `k` are never acquired. -/
theorem enable_mocks_unwinds_on_failure (r : Registry) (c s : String) (func : SetupCallback)
    (pre : List MockSpec) (k : MockSpec) (post : List MockSpec)
    (hreg : PactStates._get r c s = .ok (func, pre ++ k :: post))
    (hpre : ∀ m ∈ pre, m.acquireFails = false)
    (hk : k.acquireFails = true)
    (hdisj : ∀ m ∈ post, m.id ∉ (pre ++ [k]).map MockSpec.id) :
    PactStates.enable_mocks r c s =
      (pre.map (fun m => MEvent.acquireOk m.id) ++
        MEvent.acquireFail k.id :: pre.reverse.map (fun m => MEvent.release m.id),
       .error (.mockError k.id)) ∧
    ∀ m ∈ post, MEvent.acquireOk m.id ∉ (PactStates.enable_mocks r c s).1 ∧
      MEvent.acquireFail m.id ∉ (PactStates.enable_mocks r c s).1 := by
  have hgo := enableMocksGo_fail post k hk pre [] hpre
  have heq : PactStates.enable_mocks r c s =
      (pre.map (fun m => MEvent.acquireOk m.id) ++
        MEvent.acquireFail k.id :: pre.reverse.map (fun m => MEvent.release m.id),
       .error (.mockError k.id)) := by
    simp [PactStates.enable_mocks, PactStates.get_mocks, hreg, hgo, List.map_map,
      Function.comp_def]
  refine ⟨heq, ?_⟩
  intro m hm
  have hid := hdisj m hm
  have hpreid : ∀ a ∈ pre, a.id ≠ m.id := by
    intro a ha hEq
    exact hid (List.mem_map.mpr ⟨a, List.mem_append.mpr (Or.inl ha), hEq⟩)
  have hkid : k.id ≠ m.id := by
    intro hEq
    exact hid (List.mem_map.mpr ⟨k, List.mem_append.mpr (Or.inr (List.mem_singleton.mpr rfl)),
      hEq⟩)
  rw [heq]
  constructor
  · intro hmem
    rcases List.mem_append.mp hmem with hmem2 | hmem2
    · rcases List.mem_map.mp hmem2 with ⟨a, ha, hac⟩
      injection hac with h
      exact hpreid a ha h
    · rcases List.mem_cons.mp hmem2 with hac | hmem3
      · exact MEvent.noConfusion hac
      · rcases List.mem_map.mp hmem3 with ⟨a, _, hac⟩
        exact MEvent.noConfusion hac
  · intro hmem
    rcases List.mem_append.mp hmem with hmem2 | hmem2
    · rcases List.mem_map.mp hmem2 with ⟨a, _, hac⟩
      exact MEvent.noConfusion hac
    · rcases List.mem_cons.mp hmem2 with hac | hmem3
      · injection hac with h
        exact hkid h.symm
      · rcases List.mem_map.mp hmem3 with ⟨a, _, hac⟩
        exact MEvent.noConfusion hac

theorem enable_mocks_unwinds_on_failure_witness :
    PactStates._get sampleRegistry "Orders" "failing mocks" =
      .ok (⟨8, none⟩, [⟨1, false⟩] ++ ⟨2, true⟩ :: [⟨3, false⟩]) ∧
    PactStates.enable_mocks sampleRegistry "Orders" "failing mocks" =
      ([MEvent.acquireOk 1, MEvent.acquireFail 2, MEvent.release 1],
        .error (.mockError 2)) ∧
    ∀ m ∈ ([⟨3, false⟩] : List MockSpec),
      MEvent.acquireOk m.id ∉
        (PactStates.enable_mocks sampleRegistry "Orders" "failing mocks").1 ∧
      MEvent.acquireFail m.id ∉
        (PactStates.enable_mocks sampleRegistry "Orders" "failing mocks").1 :=
  ⟨rfl,
   (enable_mocks_unwinds_on_failure sampleRegistry "Orders" "failing mocks" ⟨8, none⟩
      [⟨1, false⟩] ⟨2, true⟩ [⟨3, false⟩] rfl (by decide) rfl (by decide)).1,
   (enable_mocks_unwinds_on_failure sampleRegistry "Orders" "failing mocks" ⟨8, none⟩
      [⟨1, false⟩] ⟨2, true⟩ [⟨3, false⟩] rfl (by decide) rfl (by decide)).2⟩

/-- C6 counterexample: the decorator of `PactStates.add` does not hand back
the identical callable it was given.  The `@wraps(func)` wrapper `inner` is
a freshly allocated function object (here with object identity 1, distinct
from the callback's identity 0), so the value returned to the call site is
not the original callback object. -/
theorem add_returns_distinct_object :
    (PactStates.add emptyRegistry "Orders" "order 42 exists" none ⟨0, none⟩ 1).2 ≠
      (⟨0, none⟩ : SetupCallback) := by decide

/-- C6 amended: `add` stores the original callback (with the mock list,
defaulted to `[]`) in the registry and returns a wrapper whose call
behaviour is identical to the original callback's, but — being a freshly
allocated function object — the wrapper is not the identical callable. -/
theorem add_returns_wrapper (r : Registry) (c s : String)
    (mocks : Option (List MockSpec)) (func : SetupCallback) (freshId : Nat) :
    ((PactStates.add r c s mocks func freshId).2).behavior = func.behavior ∧
    PactStates._get (PactStates.add r c s mocks func freshId).1 c s =
      .ok (func, mocks.getD []) ∧
    (freshId ≠ func.objId → (PactStates.add r c s mocks func freshId).2 ≠ func) := by
  refine ⟨rfl, ?_, ?_⟩
  · simp [PactStates.add, PactStates._get, PactStates._set]
  · intro h hEq
    exact h (congrArg SetupCallback.objId hEq)

theorem add_returns_wrapper_witness :
    ((PactStates.add emptyRegistry "Orders" "order 42 exists" none
        ⟨0, some "boom"⟩ 1).2).behavior = some "boom" ∧
    PactStates._get (PactStates.add emptyRegistry "Orders" "order 42 exists" none
        ⟨0, some "boom"⟩ 1).1 "Orders" "order 42 exists" = .ok (⟨0, some "boom"⟩, []) ∧
    (1 ≠ 0 ∧
      (PactStates.add emptyRegistry "Orders" "order 42 exists" none
        ⟨0, some "boom"⟩ 1).2 ≠ ⟨0, some "boom"⟩) :=
  ⟨(add_returns_wrapper emptyRegistry "Orders" "order 42 exists" none
      ⟨0, some "boom"⟩ 1).1,
   (add_returns_wrapper emptyRegistry "Orders" "order 42 exists" none
      ⟨0, some "boom"⟩ 1).2.1,
   by decide,
   (add_returns_wrapper emptyRegistry "Orders" "order 42 exists" none
      ⟨0, some "boom"⟩ 1).2.2 (by decide)⟩

/-- An element of a pact interaction's pluralized `providerStates` list: an
object with a `"name"` field. -/
structure PState where
  name : String
deriving DecidableEq, Repr

/-- The state fields of the pact interaction consumed by `verify_pacts`:
the legacy singular `providerState` (`none` models Python `None`) and the
pluralized `providerStates` list. -/
structure Interaction where
  providerState : Option String
  providerStates : List PState
deriving DecidableEq, Repr

/-- The message of the assertion in `verify_pacts`, a fixed string. -/
def assertMsg : String := "Pact interaction must have exactly one state!"

/-- The `assert len(...) == 1` followed by `providerStates[0]["name"]` in
`verify_pacts`. -/
def resolveFromStates : List PState → Except PyErr String
  | [p] => .ok p.name
  | _ => .error (.assertionError assertMsg)

/-- State-name resolution of `verify_pacts`: the singular field when truthy
(present and non-empty), otherwise the single element of the pluralized
list, otherwise the failed assertion. -/
def verifyPactsResolveState (i : Interaction) : Except PyErr String :=
  match i.providerState with
  | some s => if s = "" then resolveFromStates i.providerStates else .ok s
  | none => resolveFromStates i.providerStates

/-- The property that an error message states the number `n`: the decimal
representation of `n` occurs in the message. -/
def mentionsCount (msg : String) (n : Nat) : Prop :=
  ∃ a b : List Char, msg.data = a ++ ((Nat.repr n).data ++ b)

/-- Auxiliary: `resolveFromStates` fails with the fixed assertion message on
every list whose length is not one. -/
theorem resolveFromStates_of_length_ne_one (l : List PState) (h : l.length ≠ 1) :
    resolveFromStates l = .error (.assertionError assertMsg) := by
  cases l with
  | nil => rfl
  | cons p rest =>
    cases rest with
    | nil => exact absurd rfl h
    | cons q rest2 => rfl

/-- C1 counterexample: on an interaction with no singular state and a
two-element pluralized list, `verify_pacts` raises the assertion failure
with its fixed message — which does not state the actual element count
(no decimal digit of `2` occurs in it). -/
theorem resolve_state_count_counterexample :
    verifyPactsResolveState ⟨none, [⟨"a"⟩, ⟨"b"⟩]⟩ =
      .error (.assertionError assertMsg) ∧
    ¬ mentionsCount assertMsg 2 := by
  refine ⟨rfl, ?_⟩
  rintro ⟨a, b, h⟩
  have h2 : ('2' : Char) ∈ assertMsg.data := by
    rw [h]
    have hm : ('2' : Char) ∈ (Nat.repr 2).data := by decide
    exact List.mem_append.mpr (Or.inr (List.mem_append.mpr (Or.inl hm)))
  revert h2
  decide

/-- C1 amended: a present non-empty singular field resolves to its value;
with the singular field absent or empty, a one-element pluralized list
resolves to that element's name, and any other length raises an assertion
failure with the fixed message `"Pact interaction must have exactly one
state!"` (which does not state the actual count). -/
theorem resolve_state_cases (i : Interaction) :
    (∀ s, i.providerState = some s → s ≠ "" → verifyPactsResolveState i = .ok s) ∧
    ((i.providerState = none ∨ i.providerState = some "") →
      ∀ p, i.providerStates = [p] → verifyPactsResolveState i = .ok p.name) ∧
    ((i.providerState = none ∨ i.providerState = some "") →
      i.providerStates.length ≠ 1 →
      verifyPactsResolveState i = .error (.assertionError assertMsg)) := by
  refine ⟨?_, ?_, ?_⟩
  · intro s hs hne
    simp [verifyPactsResolveState, hs, hne]
  · rintro (h | h) p hp <;> simp [verifyPactsResolveState, h, hp, resolveFromStates]
  · rintro (h | h) hlen <;>
      simp [verifyPactsResolveState, h, resolveFromStates_of_length_ne_one _ hlen]

theorem resolve_state_cases_witness :
    verifyPactsResolveState ⟨some "stateA", []⟩ = .ok "stateA" ∧
    verifyPactsResolveState ⟨none, [⟨"stateB"⟩]⟩ = .ok "stateB" ∧
    verifyPactsResolveState ⟨none, []⟩ = .error (.assertionError assertMsg) :=
  ⟨(resolve_state_cases ⟨some "stateA", []⟩).1 "stateA" rfl (by decide),
   (resolve_state_cases ⟨none, [⟨"stateB"⟩]⟩).2.1 (Or.inl rfl) ⟨"stateB"⟩ rfl,
   (resolve_state_cases ⟨none, []⟩).2.2 (Or.inl rfl) (by decide)⟩

/-- One entry of the `publication` dict built by `find_pacts` and consumed
by `publish`: pact file name, publish URL, parsed JSON body (opaque). -/
structure PubEntry where
  name : String
  url : String
  data : Nat
deriving DecidableEq, Repr

/-- Observable events of `PactBrokerInterface.publish`: an HTTP `PUT` of one
pact file, and the messages printed on 201 and 200 responses. -/
inductive PubEvent where
  | putReq (name : String) (url : String)
  | printedNew (name : String)
  | printedUpdate (name : String)
deriving DecidableEq, Repr

namespace PactBrokerInterface

/-- Model of `requests.Response.raise_for_status`: raises `HTTPError` exactly for the
client-error and server-error codes 400-599; informational, redirect and
success codes pass. -/
def raise_for_status (status : Nat) : Except PyErr Unit :=
  if 400 ≤ status ∧ status < 600 then .error (.httpError status) else .ok ()

/-- The `PUT` and the conditional `print` for one pact file whose response
passed `raise_for_status`. -/
def putEvents (e : PubEntry) (status : Nat) : List PubEvent :=
  PubEvent.putReq e.name e.url ::
    (if status = 201 then [PubEvent.printedNew e.name]
     else if status = 200 then [PubEvent.printedUpdate e.name] else [])

/-- The loop of `publish`, with `st i` the status code of the response to
the `i`-th `PUT`: upload each file in order; the first response rejected by
`raise_for_status` aborts the rest of the batch. -/
def publishGo (st : Nat → Nat) : List PubEntry → Nat → List PubEvent × Except PyErr Unit
  | [], _ => ([], .ok ())
  | e :: rest, i =>
    match raise_for_status (st i) with
    | .error err => ([PubEvent.putReq e.name e.url], .error err)
    | .ok _ =>
      let r := publishGo st rest (i + 1)
      (putEvents e (st i) ++ r.1, r.2)

/-- Model of `PactBrokerInterface.publish`. -/
def publish (publication : List PubEntry) (st : Nat → Nat) :
    List PubEvent × Except PyErr Unit :=
  publishGo st publication 0

/-- The events of a prefix of the batch all of whose responses passed
`raise_for_status`. -/
def preEvents (st : Nat → Nat) : List PubEntry → Nat → List PubEvent
  | [], _ => []
  | e :: rest, i => putEvents e (st i) ++ preEvents st rest (i + 1)

end PactBrokerInterface

/-- C8 counterexample: a `303` response is not a 2xx status, yet
`raise_for_status` lets it pass: `publish` neither raises nor aborts; the
following file is still uploaded and the batch ends successfully. -/
theorem publish_counterexample :
    ((303 : Nat) < 200 ∨ (300 : Nat) ≤ 303) ∧
    PactBrokerInterface.publish
        [⟨"a-pact.json", "u1", 0⟩, ⟨"b-pact.json", "u2", 1⟩]
        (fun i => if i = 0 then 303 else 201) =
      ([PubEvent.putReq "a-pact.json" "u1", PubEvent.putReq "b-pact.json" "u2",
        PubEvent.printedNew "b-pact.json"], .ok ()) :=
  ⟨by decide, rfl⟩

/-- Auxiliary: the publish loop uploads one file per `PUT` in sequence until
the first response with a 4xx/5xx status, which raises immediately; files
after the failing one are never uploaded. -/
theorem publishGo_aborts (post : List PubEntry) (e : PubEntry) (st : Nat → Nat) :
    ∀ (pre : List PubEntry) (i : Nat),
    (∀ j, j < pre.length → ¬(400 ≤ st (i + j) ∧ st (i + j) < 600)) →
    (400 ≤ st (i + pre.length) ∧ st (i + pre.length) < 600) →
    PactBrokerInterface.publishGo st (pre ++ e :: post) i =
      (PactBrokerInterface.preEvents st pre i ++ [PubEvent.putReq e.name e.url],
       .error (.httpError (st (i + pre.length))))
  | [], i, _, hfail => by
    have hf : 400 ≤ st i ∧ st i < 600 := by simpa using hfail
    have hr : PactBrokerInterface.raise_for_status (st i) = .error (.httpError (st i)) := by
      simp [PactBrokerInterface.raise_for_status, hf]
    simp [PactBrokerInterface.publishGo, hr, PactBrokerInterface.preEvents]
  | p :: pre, i, hok, hfail => by
    have h0 : ¬(400 ≤ st i ∧ st i < 600) := by
      have := hok 0 (Nat.succ_pos pre.length)
      simpa using this
    have hr : PactBrokerInterface.raise_for_status (st i) = .ok () := by
      simp [PactBrokerInterface.raise_for_status, h0]
    have hok2 : ∀ j, j < pre.length → ¬(400 ≤ st (i + 1 + j) ∧ st (i + 1 + j) < 600) := by
      intro j hj
      have harith : i + 1 + j = i + (j + 1) := by omega
      rw [harith]
      exact hok (j + 1) (Nat.succ_lt_succ hj)
    have hfail2 : 400 ≤ st (i + 1 + pre.length) ∧ st (i + 1 + pre.length) < 600 := by
      have harith : i + 1 + pre.length = i + (pre.length + 1) := by omega
      rw [harith]
      exact hfail
    have ih := publishGo_aborts post e st pre (i + 1) hok2 hfail2
    have harith2 : i + 1 + pre.length = i + (pre.length + 1) := by omega
    rw [harith2] at ih
    simp only [List.cons_append, PactBrokerInterface.publishGo, hr, List.append_eq]
    simp [ih, PactBrokerInterface.preEvents]

/-- C8 amended: files are uploaded one per `PUT` in sequence; the first
response with a 4xx/5xx status (`raise_for_status`) raises immediately,
aborting the remaining batch — files after the failing one are never
uploaded, and already-uploaded files are not rolled back.  Non-2xx statuses
outside 400-599 (such as 3xx redirects) do not raise and do not abort. -/
theorem publish_aborts_on_error_status (pre : List PubEntry) (e : PubEntry)
    (post : List PubEntry) (st : Nat → Nat)
    (hok : ∀ j, j < pre.length → ¬(400 ≤ st j ∧ st j < 600))
    (hfail : 400 ≤ st pre.length ∧ st pre.length < 600) :
    PactBrokerInterface.publish (pre ++ e :: post) st =
      (PactBrokerInterface.preEvents st pre 0 ++ [PubEvent.putReq e.name e.url],
       .error (.httpError (st pre.length))) := by
  have h := publishGo_aborts post e st pre 0 (by simpa using hok) (by simpa using hfail)
  simpa [PactBrokerInterface.publish] using h

theorem publish_aborts_on_error_status_witness :
    PactBrokerInterface.publish
        ([⟨"a-pact.json", "u1", 0⟩] ++ ⟨"b-pact.json", "u2", 1⟩ :: [⟨"c-pact.json", "u3", 2⟩])
        (fun i => if i = 0 then 200 else 500) =
      ([PubEvent.putReq "a-pact.json" "u1", PubEvent.printedUpdate "a-pact.json",
        PubEvent.putReq "b-pact.json" "u2"], .error (.httpError 500)) :=
  publish_aborts_on_error_status [⟨"a-pact.json", "u1", 0⟩] ⟨"b-pact.json", "u2", 1⟩
    [⟨"c-pact.json", "u3", 2⟩] (fun i => if i = 0 then 200 else 500)
    (by intro j hj; have h0 : j = 0 := Nat.lt_one_iff.mp hj; subst h0; decide)
    (by decide)

/-- The parts of a `requests.PreparedRequest` consumed by
`PactRequestMimic.request`.  `Request(...).prepare()` belongs to the
external `requests` library, so the prepared request is supplied as a
function parameter below. -/
structure PreparedRequest where
  method : String
  body : Option String
  headers : List (String × String)

/-- The namedtuple `WithRequestDTO(method, path, body, headers, query)`
returned by `PactRequestMimic.request`; headers model a Python dict as an
association list with unique keys. -/
structure WithRequestDTO where
  method : String
  path : String
  body : Option String
  headers : List (String × String)
  query : Option String

/-- Dict lookup in a header mapping. -/
def lookupHeader (key : String) : List (String × String) → Option String
  | [] => none
  | (k, v) :: rest => if k = key then some v else lookupHeader key rest

/-- Model of `headers.pop(key, "")`: the mapping with the binding of `key` removed. -/
def popHeader (key : String) (hs : List (String × String)) : List (String × String) :=
  hs.filter (fun kv => kv.1 ≠ key)

/-- The dummy absolute base URL thrown in because `requests` needs an
absolute URL while the pact server wants a relative one. -/
def dummyUrl : String := "http://dummy"

namespace PactRequestMimic

/-- Model of `PactRequestMimic.request`: pop `params` aside as the query, prepare the
request against the dummy absolute base, drop the `Content-Length` header
added by `requests`, and assemble the DTO with the caller's `url` as path.
`prepare` stands for `requests.Request(method=method, url="http://dummy",
**kwargs).prepare()` of the external `requests` library; the remaining
keyword arguments are folded into it. -/
def request (method url : String) (params : Option String)
    (prepare : String → String → PreparedRequest) : WithRequestDTO :=
  let query := params
  let prepared := prepare method dummyUrl
  let headers := popHeader "Content-Length" prepared.headers
  { method := prepared.method, path := url, body := prepared.body,
    headers := headers, query := query }

end PactRequestMimic

/-- Auxiliary: a popped key is gone from the header mapping. -/
theorem lookupHeader_popHeader (key : String) (hs : List (String × String)) :
    lookupHeader key (popHeader key hs) = none := by
  induction hs with
  | nil => rfl
  | cons kv rest ih =>
    rcases kv with ⟨k, v⟩
    by_cases h : k = key
    · simpa [popHeader, List.filter_cons, h] using ih
    · simpa [popHeader, List.filter_cons, h, lookupHeader] using ih

/-- C9: the DTO returned by `PactRequestMimic.request` carries the caller's
`url` verbatim as `path` (so the dummy absolute base never reaches the
path), the `params` argument verbatim as `query` (`none` when absent), and
a header mapping with no `"Content-Length"` key, whatever headers the
prepared request produced. -/
theorem request_mimic_fields (method url : String) (params : Option String)
    (prepare : String → String → PreparedRequest) :
    (PactRequestMimic.request method url params prepare).path = url ∧
    (PactRequestMimic.request method url params prepare).query = params ∧
    lookupHeader "Content-Length"
      (PactRequestMimic.request method url params prepare).headers = none :=
  ⟨rfl, rfl, lookupHeader_popHeader "Content-Length" (prepare method dummyUrl).headers⟩

/-- A pact file as seen by `find_pacts`: `pathlib` name and stem, and its
JSON content (opaque: `json.load` is abstracted to the already-parsed
value). -/
structure FileRef where
  name : String
  stem : String
  data : Nat
deriving DecidableEq, Repr

/-- What `pathlib` reports about the argument path: missing, a directory
(with the files matched by `path.glob(f"**/{self.glob}")`), a file (with
its `path.suffix`), or an existing path that is neither. -/
inductive PathInfo where
  | missing
  | directory (globMatches : List FileRef)
  | file (f : FileRef) (suffix : String)
  | other
deriving DecidableEq, Repr

/-- Python `str.split(sep)` for a one-character separator (the class
default is `sep="-"`): split on every occurrence, keeping empty parts. -/
def splitChars (sep : Char) : List Char → List (List Char)
  | [] => [[]]
  | c :: rest =>
    let r := splitChars sep rest
    if c = sep then [] :: r
    else
      match r with
      | [] => [[c]]
      | g :: gs => (c :: g) :: gs

/-- Python `str.split` lifted to `String`. -/
def pySplit (s : String) (sep : Char) : List String :=
  (splitChars sep s.data).map String.mk

/-- Python `str.lower` on the ASCII range (enough for the `".json"` suffix
comparison). -/
def asciiLowerChar (c : Char) : Char :=
  if 'A' ≤ c ∧ c ≤ 'Z' then Char.ofNat (c.toNat + 32) else c

/-- Python `str.lower` lifted to `String`. -/
def asciiLower (s : String) : String :=
  String.mk (s.data.map asciiLowerChar)

namespace PactBrokerInterface

/-- Model of `consumer, provider, _ = pact.stem.split(self.sep)`: tuple unpacking of
the split result, a `ValueError` unless it has exactly three parts. -/
def splitUnpack3 (stem : String) (sep : Char) : Except PyErr (String × String) :=
  match pySplit stem sep with
  | [a, b, _c] => .ok (a, b)
  | l =>
    .error (.valueError
      (if l.length < 3 then
        "not enough values to unpack (expected 3, got " ++ Nat.repr l.length ++ ")"
      else "too many values to unpack (expected 3)"))

/-- The publish URL template
`f"{self.url}/pacts/provider/{provider}/consumer/{consumer}/version/{version}"`. -/
def publishUrl (url provider consumer version : String) : String :=
  url ++ "/pacts/provider/" ++ provider ++ "/consumer/" ++ consumer ++ "/version/" ++ version

/-- The loop of `find_pacts` over the glob matches of a directory path. -/
def findPactsDir (url : String) (sep : Char) (version : String) :
    List FileRef → Except PyErr (List PubEntry)
  | [] => .ok []
  | f :: rest =>
    match splitUnpack3 f.stem sep with
    | .error e => .error e
    | .ok (consumer, provider) =>
      match findPactsDir url sep version rest with
      | .error e => .error e
      | .ok l => .ok (⟨f.name, publishUrl url provider consumer version, f.data⟩ :: l)

/-- Model of `PactBrokerInterface.find_pacts`: a missing path raises `ValueError`; a
directory is walked through its glob matches; a file is published only when
its suffix lowercases to `".json"`, and anything else yields an empty
publication. -/
def find_pacts (url : String) (sep : Char) (pact_path version : String) (p : PathInfo) :
    Except PyErr (List PubEntry) :=
  match p with
  | .missing =>
    .error (.valueError ("Unable to find " ++ pact_path ++ ". No such file or directory."))
  | .directory globMatches => findPactsDir url sep version globMatches
  | .file f suffix =>
    if asciiLower suffix = ".json" then
      match splitUnpack3 f.stem sep with
      | .error e => .error e
      | .ok (consumer, provider) =>
        .ok [⟨f.name, publishUrl url provider consumer version, f.data⟩]
    else .ok []
  | .other => .ok []

end PactBrokerInterface

/-- C10 counterexample: `find_pacts` can raise `ValueError` on a path that
does exist.  The existing file `"ab.json"` has suffix `".json"`, but its
stem `"ab"` splits on `"-"` into one part, so the tuple unpacking
`consumer, provider, _ = stem.split(sep)` raises `ValueError` — refuting
"raises ValueError only if the path does not exist". -/
theorem find_pacts_counterexample :
    PathInfo.file ⟨"ab.json", "ab", 0⟩ ".json" ≠ PathInfo.missing ∧
    PactBrokerInterface.find_pacts "http://broker" '-' "ab.json" "1.0.0"
        (PathInfo.file ⟨"ab.json", "ab", 0⟩ ".json") =
      .error (.valueError "not enough values to unpack (expected 3, got 1)") :=
  ⟨by decide, rfl⟩

/-- C10 amended: `find_pacts` raises `ValueError` whenever the path does not
exist, and for an existing file whose suffix is not `".json"`
case-insensitively it silently returns an empty publication; but an
existing path can also raise `ValueError`, through the tuple unpacking of a
stem that does not split into exactly three parts. -/
theorem find_pacts_missing_and_suffix (url : String) (sep : Char)
    (pact_path version : String) (p : PathInfo) :
    (p = PathInfo.missing →
      PactBrokerInterface.find_pacts url sep pact_path version p =
        .error (.valueError
          ("Unable to find " ++ pact_path ++ ". No such file or directory."))) ∧
    (∀ f suffix, p = PathInfo.file f suffix → asciiLower suffix ≠ ".json" →
      PactBrokerInterface.find_pacts url sep pact_path version p = .ok []) := by
  constructor
  · intro h
    subst h
    rfl
  · intro f suffix h hsuf
    subst h
    simp [PactBrokerInterface.find_pacts, hsuf]

theorem find_pacts_missing_and_suffix_witness :
    (PactBrokerInterface.find_pacts "http://broker" '-' "nowhere" "1.0.0" PathInfo.missing =
      .error (.valueError "Unable to find nowhere. No such file or directory.")) ∧
    asciiLower ".TXT" ≠ ".json" ∧
    PactBrokerInterface.find_pacts "http://broker" '-' "notes.TXT" "1.0.0"
      (PathInfo.file ⟨"notes.TXT", "notes", 0⟩ ".TXT") = .ok [] :=
  ⟨by
    have h := (find_pacts_missing_and_suffix "http://broker" '-' "nowhere" "1.0.0"
      PathInfo.missing).1 rfl
    simpa using h,
   by decide,
   (find_pacts_missing_and_suffix "http://broker" '-' "notes.TXT" "1.0.0"
      (PathInfo.file ⟨"notes.TXT", "notes", 0⟩ ".TXT")).2 ⟨"notes.TXT", "notes", 0⟩ ".TXT"
      rfl (by decide)⟩
